import Mathlib

/-!
Verification development for the turn-based recording/processing pipeline of
the english-coach-ai web front-end.

The definitions below are shallow embeddings of the client code:

* `resolveVoice`, `getSavedVoice`, `defaultVoiceFor` — `src/apps/web/src/lib/voices.ts`;
* `processBlob` — the home screen pipeline (`src/apps/web/src/app/page.tsx`,
  `processBlob`): ASR → CHAT → TTS with early return on the first non-ok
  response;
* `processAnswer` — the restaurant lesson pipeline
  (`src/apps/web/src/app/lesson/restaurant/page.tsx`): ASR → TURN → TTS A →
  TTS B, throwing (and hence halting) on the first failure;
* `lessonOnstop` — the `mr.onstop` pipeline of the other lesson variant
  (`src/unnamed/part_003`), including its `stepIndex` advancement rule and the
  quote-stripping applied to the shadowing synthesis text;
* `runHome` — a discrete-event model of the home screen recorder session
  (`startRec` / `stopRec` / `mr.onstop` of `src/apps/web/src/app/page.tsx`),
  with the auto-stop timeout, the countdown interval, and the capture-device
  handle as explicit state.

JavaScript strings are modelled as `String`, nullable JSON fields as
`Option String`, timer handles as `Option Nat` (the scheduled fire time), and
the single-threaded event loop as a fold over a list of timestamped events.
-/

namespace Coach

/-! ### Characters and string helpers (ASCII, as used by the sources) -/

/-- The double-quote character. -/
def dq : Char := Char.ofNat 34

/-- The single-quote character. -/
def sq : Char := Char.ofNat 39

/-- ASCII whitespace, the characters relevant to `String.prototype.trim`
for the inputs of this code base. -/
def isSpaceChar (c : Char) : Bool :=
  c = Char.ofNat 32 ∨ c = Char.ofNat 9 ∨ c = Char.ofNat 10 ∨ c = Char.ofNat 13

/-- Trim ASCII whitespace from both ends of a character list. -/
def trimChars (cs : List Char) : List Char :=
  ((cs.dropWhile isSpaceChar).reverse.dropWhile isSpaceChar).reverse

/-- Model of JavaScript `s.trim()`. -/
def jsTrim (s : String) : String := String.mk (trimChars s.toList)

/-- Model of `x || ""` applied to a nullable JSON string field. -/
def orEmpty (s : Option String) : String := s.getD ""

/-- Split a character list at every occurrence of the character `q`
(the separators are dropped, empty segments kept). -/
def splitOnChar (q : Char) : List Char → List (List Char)
  | [] => [[]]
  | c :: rest =>
    if c = q then [] :: splitOnChar q rest
    else
      match splitOnChar q rest with
      | [] => [[c]]
      | h :: t => (c :: h) :: t

/-- Split a character list at every sentence delimiter `.`, `!`, `?`. -/
def splitClauses : List Char → List (List Char)
  | [] => [[]]
  | c :: rest =>
    if c = Char.ofNat 46 ∨ c = Char.ofNat 33 ∨ c = Char.ofNat 63 then
      [] :: splitClauses rest
    else
      match splitClauses rest with
      | [] => [[c]]
      | h :: t => (c :: h) :: t

/-- First substring enclosed in a pair of `q` characters: the text between the
first and the second occurrence of `q`, `none` when the text has fewer than
two occurrences of `q`. -/
def firstQuoted (q : Char) (t : String) : Option String :=
  match splitOnChar q t.toList with
  | _ :: inner :: _ :: _ => some (String.mk inner)
  | _ => none

/-- Last sentence-delimited clause: split on `.`, `!`, `?`, trim each segment,
keep the non-empty ones, take the last. -/
def lastClause (t : String) : Option String :=
  ((((splitClauses t.toList).map trimChars).filter
      (fun c => c ≠ [])).getLast?).map String.mk

/-- Modelled from the spec: the correction-extraction helper of the
home-screen variant is not among the provided source files (the home variants
under `src/` pass the chat text to synthesis verbatim), so this definition
follows the spec's words for the four-level fallback chain: (a) the first
double-quoted substring, else (b) the first single-quoted substring, else
(c) the last sentence-delimited clause (split on `.`, `!`, `?`, trimmed, last
non-empty segment), else (d) the entire text verbatim. -/
def extractCorrected (t : String) : String :=
  match firstQuoted dq t with
  | some s => s
  | none =>
    match firstQuoted sq t with
    | some s => s
    | none =>
      match lastClause t with
      | some c => c
      | none => t

/-- Model of `(s || "").replace(/^"+|"+$/g, "")` from `src/unnamed/part_003`
(TTS B): remove the maximal run of double quotes at the start and at the end
of the string, keeping interior quotes. -/
def stripEdgeQuotes (s : String) : String :=
  String.mk
    (((s.toList.dropWhile (fun c => c = dq)).reverse.dropWhile
        (fun c => c = dq)).reverse)

/-! ### Voice resolution (`src/apps/web/src/lib/voices.ts`) -/

/-- The enumerated voice allow-list `SUPPORTED_VOICES`. -/
def SUPPORTED_VOICES : List String :=
  ["alloy", "echo", "fable", "onyx", "nova", "shimmer",
   "coral", "verse", "ballad", "ash", "sage", "marin", "cedar"]

/-- `getSavedVoice`: the locally stored preference (`none` models a missing
key), validated against the allow-list. -/
def getSavedVoice (stored : Option String) : Option String :=
  let v := stored.getD ""
  if SUPPORTED_VOICES.contains v then some v else none

/-- Lower-case a string character-wise, model of `lang.toLowerCase()` for the
ASCII language tags this code uses. -/
def lowerAscii (s : String) : List Char := s.toList.map Char.toLower

/-- Boolean list-prefix test, model of `String.prototype.startsWith`. -/
def isPre : List Char → List Char → Bool
  | [], _ => true
  | _ :: _, [] => false
  | a :: as, b :: bs => a = b && isPre as bs

/-- `defaultVoiceFor`: language-based default voice. -/
def defaultVoiceFor (lang : String) : String :=
  let x := lowerAscii lang
  if isPre "en".toList x then "verse"
  else if isPre "es".toList x then "sage"
  else "alloy"

/-- `resolveVoice`: `getSavedVoice() || defaultVoiceFor(lang)` (the voices are
non-empty strings, so JavaScript truthiness coincides with `Option.getD`). -/
def resolveVoice (stored : Option String) (lang : String) : String :=
  (getSavedVoice stored).getD (defaultVoiceFor lang)

/-! ### Remote calls and the three pipeline variants -/

/-- A remote HTTP response, as the client observes it: `ok` / `status` from
`fetch`, `text` the (nullable) `text` field of the JSON body, `errMsg` the
(nullable) `error` field / body text used in failure messages. -/
structure Resp where
  ok : Bool
  statusCode : Nat
  text : Option String
  errMsg : Option String
deriving DecidableEq

/-- The remote stages a pipeline run can issue, in the order the code issues
them.  `turn` is `/lesson/turn`; `ttsA`/`ttsB`/`ttsNext` are the feedback,
shadowing and next-prompt synthesis calls of the lesson variants. -/
inductive Stage
  | asr
  | chat
  | tts
  | turn
  | ttsA
  | ttsB
  | ttsNext
deriving DecidableEq

/-- Observable outcome of the home screen pipeline `processBlob`
(`src/apps/web/src/app/page.tsx`): the remote calls issued in order, the
status line, and the displayed transcript / reply / audio. -/
structure HomeOutcome where
  calls : List Stage
  statusMsg : String
  shownText : String
  shownReply : String
  hasAudio : Bool
deriving DecidableEq

/-- `processBlob` of the home screen (`src/apps/web/src/app/page.tsx`,
lines 86–156): ASR, then CHAT, then TTS, each issued only after the previous
response came back, returning (with an error status line) on the first non-ok
response.  The success status line's timing figures are elided. -/
def processBlob (asrR chatR ttsR : Resp) : HomeOutcome :=
  if asrR.ok = false then
    { calls := [Stage.asr]
      statusMsg := "ASR " ++ toString asrR.statusCode ++ ": "
        ++ (asrR.errMsg.getD "error")
      shownText := "", shownReply := "", hasAudio := false }
  else
    let text := orEmpty asrR.text
    if chatR.ok = false then
      { calls := [Stage.asr, Stage.chat]
        statusMsg := "CHAT " ++ toString chatR.statusCode ++ ": "
          ++ (chatR.errMsg.getD "error")
        shownText := text, shownReply := "", hasAudio := false }
    else
      let reply := orEmpty chatR.text
      if ttsR.ok = false then
        { calls := [Stage.asr, Stage.chat, Stage.tts]
          statusMsg := "TTS " ++ toString ttsR.statusCode ++ ": "
            ++ (ttsR.errMsg.getD "error")
          shownText := text, shownReply := reply, hasAudio := false }
      else
        { calls := [Stage.asr, Stage.chat, Stage.tts]
          statusMsg := "Listo"
          shownText := text, shownReply := reply, hasAudio := true }

/-- The JSON payload of a successful `/lesson/turn` response, field names as
in the sources. -/
structure TurnResp where
  teacher_feedback : String
  corrected_sentence : String
  advanced : Bool
  lesson_done : Bool
  next_step_index : Nat
  next_teacher_text_native : String
deriving DecidableEq

/-- Observable outcome of `processAnswer`
(`src/apps/web/src/app/lesson/restaurant/page.tsx`): calls issued in order,
the `error` state (empty when no error), the displayed feedback / corrected
sentence, and the step index after the turn (that page never changes it). -/
structure AnswerOutcome where
  calls : List Stage
  errTxt : String
  feedbackShown : String
  correctedShown : String
  stepIndexAfter : Nat
deriving DecidableEq

/-- `processAnswer` of the restaurant lesson page
(`src/apps/web/src/app/lesson/restaurant/page.tsx`, lines 183–247): throws —
modelled as an early return with `errTxt` set — on a zero-size blob, a non-ok
ASR response, an empty (trimmed) transcript, a non-ok TURN response, or a
non-ok TTS response inside `ttsBlob`; TTS A is issued only for a non-empty
feedback, TTS B only for a non-empty corrected sentence and only after TTS A
succeeded (or was skipped). -/
def processAnswer (blobSize stepIndex : Nat) (asrR turnR : Resp)
    (tj : TurnResp) (ttsAR ttsBR : Resp) : AnswerOutcome :=
  if blobSize = 0 then
    { calls := [], errTxt := "No se capturó audio."
      feedbackShown := "", correctedShown := "", stepIndexAfter := stepIndex }
  else if asrR.ok = false then
    { calls := [Stage.asr]
      errTxt := "ASR failed: " ++ toString asrR.statusCode ++ " "
        ++ (orEmpty asrR.errMsg).take 200
      feedbackShown := "", correctedShown := "", stepIndexAfter := stepIndex }
  else
    let userText := jsTrim (orEmpty asrR.text)
    if userText = "" then
      { calls := [Stage.asr], errTxt := "No se reconoció texto en el audio."
        feedbackShown := "", correctedShown := "", stepIndexAfter := stepIndex }
    else if turnR.ok = false then
      { calls := [Stage.asr, Stage.turn]
        errTxt := "TURN failed: " ++ toString turnR.statusCode ++ " "
          ++ (orEmpty turnR.errMsg).take 200
        feedbackShown := "", correctedShown := "", stepIndexAfter := stepIndex }
    else
      let fb := tj.teacher_feedback
      let corr := tj.corrected_sentence
      if fb ≠ "" then
        if ttsAR.ok = false then
          { calls := [Stage.asr, Stage.turn, Stage.ttsA]
            errTxt := "TTS failed: " ++ toString ttsAR.statusCode
            feedbackShown := fb, correctedShown := corr
            stepIndexAfter := stepIndex }
        else if corr ≠ "" then
          if ttsBR.ok = false then
            { calls := [Stage.asr, Stage.turn, Stage.ttsA, Stage.ttsB]
              errTxt := "TTS failed: " ++ toString ttsBR.statusCode
              feedbackShown := fb, correctedShown := corr
              stepIndexAfter := stepIndex }
          else
            { calls := [Stage.asr, Stage.turn, Stage.ttsA, Stage.ttsB]
              errTxt := "", feedbackShown := fb, correctedShown := corr
              stepIndexAfter := stepIndex }
        else
          { calls := [Stage.asr, Stage.turn, Stage.ttsA]
            errTxt := "", feedbackShown := fb, correctedShown := corr
            stepIndexAfter := stepIndex }
      else if corr ≠ "" then
        if ttsBR.ok = false then
          { calls := [Stage.asr, Stage.turn, Stage.ttsB]
            errTxt := "TTS failed: " ++ toString ttsBR.statusCode
            feedbackShown := fb, correctedShown := corr
            stepIndexAfter := stepIndex }
        else
          { calls := [Stage.asr, Stage.turn, Stage.ttsB]
            errTxt := "", feedbackShown := fb, correctedShown := corr
            stepIndexAfter := stepIndex }
      else
        { calls := [Stage.asr, Stage.turn]
          errTxt := "", feedbackShown := fb, correctedShown := corr
          stepIndexAfter := stepIndex }

/-- Observable outcome of the `mr.onstop` pipeline of the other lesson
variant (`src/unnamed/part_003`): calls issued, status line, the texts handed
to each synthesis call, the step index after the turn, and the size of the
blob that was submitted. -/
structure LessonOutcome where
  calls : List Stage
  statusMsg : String
  userTextShown : String
  feedbackShown : String
  correctedShown : String
  ttsAText : String
  ttsBText : String
  ttsNextText : String
  stepIndexAfter : Nat
  blobSize : Nat
deriving DecidableEq

/-- The `mr.onstop` pipeline of `src/unnamed/part_003` (lines 94–171): builds
the blob with no size check, issues ASR, halts with `ASR <status>` on a
non-ok response, issues TURN, halts with `TURN <status>` on a non-ok
response, then issues TTS A with the feedback text at normal pace and TTS B
with the corrected sentence stripped of edge double quotes at slow pace
(their responses are not checked), and finally — only when the turn reported
`advanced` and supplied a non-empty next prompt — updates `stepIndex` to
`next_step_index` and pre-synthesizes the next prompt (`ttsNext`). -/
def lessonOnstop (chunkSizes : List Nat) (stepIndex : Nat)
    (asrR turnR : Resp) (tj : TurnResp) : LessonOutcome :=
  let blobSize := chunkSizes.sum
  if asrR.ok = false then
    { calls := [Stage.asr], statusMsg := "ASR " ++ toString asrR.statusCode
      userTextShown := "", feedbackShown := "", correctedShown := ""
      ttsAText := "", ttsBText := "", ttsNextText := ""
      stepIndexAfter := stepIndex, blobSize := blobSize }
  else
    let userText := orEmpty asrR.text
    if turnR.ok = false then
      { calls := [Stage.asr, Stage.turn]
        statusMsg := "TURN " ++ toString turnR.statusCode
        userTextShown := userText, feedbackShown := "", correctedShown := ""
        ttsAText := "", ttsBText := "", ttsNextText := ""
        stepIndexAfter := stepIndex, blobSize := blobSize }
    else
      let fb := tj.teacher_feedback
      let corr := tj.corrected_sentence
      let aText := fb
      let bText := stripEdgeQuotes corr
      let doneMsg :=
        if tj.lesson_done then "Lección lista ✅"
        else if tj.advanced then "¡Bien! Avancemos al siguiente paso."
        else "Repitamos este paso."
      if tj.advanced ∧ tj.next_teacher_text_native ≠ "" then
        { calls := [Stage.asr, Stage.turn, Stage.ttsA, Stage.ttsB,
            Stage.ttsNext]
          statusMsg := doneMsg
          userTextShown := userText, feedbackShown := fb
          correctedShown := corr
          ttsAText := aText, ttsBText := bText
          ttsNextText := tj.next_teacher_text_native
          stepIndexAfter := tj.next_step_index, blobSize := blobSize }
      else
        { calls := [Stage.asr, Stage.turn, Stage.ttsA, Stage.ttsB]
          statusMsg := doneMsg
          userTextShown := userText, feedbackShown := fb
          correctedShown := corr
          ttsAText := aText, ttsBText := bText, ttsNextText := ""
          stepIndexAfter := stepIndex, blobSize := blobSize }

/-! ### Home screen recorder session (`startRec` / `stopRec` / `mr.onstop`,
`src/apps/web/src/app/page.tsx`)

The session is modelled as state plus a fold over timestamped external
events.  Times are milliseconds.  The scheduled auto-stop timeout is part of
the state (`autoStopAt`, `none` once cleared or spent); it fires — in
timestamp order — before any event whose time is at or past its fire time,
and at the end of the trace.  `MediaRecorder.stop()` makes the recorder
inactive and runs the `onstop` handler. -/

/-- External events of a recorder session: an `ondataavailable` fragment of
the given size, or the user pressing the stop button (`stopRec`). -/
inductive UEvent
  | data (size : Nat)
  | manualStop
deriving DecidableEq

/-- State of one home screen recorder session. -/
structure HomeRec where
  /-- `mr.state === "recording"`. -/
  recording : Bool
  /-- Sizes of the buffered fragments (`chunks.current`). -/
  chunkSizes : List Nat
  /-- Scheduled fire time of the auto-stop timeout (`stopTimeoutRef`),
  `none` when cleared or already fired. -/
  autoStopAt : Option Nat
  /-- The countdown interval (`timerRef`) is running. -/
  countdownOn : Bool
  isRecording : Bool
  isProcessing : Bool
  /-- How many times `onstop` finalized a blob from the buffered chunks. -/
  blobsFinalized : Nat
  /-- Time at which `onstop` ran, once it has. -/
  stopTime : Option Nat
  /-- `processBlob` was entered for this session. -/
  pipelineEntered : Bool
  /-- The microphone stream's tracks were stopped.  The home screen code has
  no `stream.getTracks().forEach(t => t.stop())`, so no transition of this
  model ever sets it. -/
  tracksReleased : Bool
  /-- The auto-stop timeout fired and actually stopped the recorder. -/
  autoFired : Bool
  statusMsg : String
deriving DecidableEq

/-- Status line shown by `onstop` for a zero-size blob. -/
def emptyCaptureMsg : String :=
  "No se capturó audio (habla 2–3s antes de detener)."

/-- State right after a successful `startRec` with auto-stop scheduled at
`maxMs` (`src/apps/web/src/app/page.tsx`, lines 159–211). -/
def startRecState (maxMs : Nat) : HomeRec :=
  { recording := true, chunkSizes := [], autoStopAt := some maxMs
    countdownOn := true, isRecording := true, isProcessing := false
    blobsFinalized := 0, stopTime := none, pipelineEntered := false
    tracksReleased := false, autoFired := false
    statusMsg := "Grabando…" }

/-- The `mr.onstop` handler (lines 174–193): clear the countdown interval and
the auto-stop timeout, finalize the buffered chunks into one blob, and either
report an empty capture (zero-size blob) or hand the blob to `processBlob`
(which sets `isRecording` false and, in its `finally`, `isProcessing` false
again). -/
def homeOnstop (now : Nat) (s : HomeRec) : HomeRec :=
  if s.chunkSizes.sum = 0 then
    { s with
      countdownOn := false, autoStopAt := none, chunkSizes := [],
      blobsFinalized := s.blobsFinalized + 1, stopTime := some now,
      statusMsg := emptyCaptureMsg, isRecording := false }
  else
    { s with
      countdownOn := false, autoStopAt := none, chunkSizes := [],
      blobsFinalized := s.blobsFinalized + 1, stopTime := some now,
      statusMsg := "Procesando…", isRecording := false, isProcessing := false,
      pipelineEntered := true }

/-- The auto-stop timeout callback (lines 203–205): once its fire time is
reached the timeout is spent; its body stops the recorder only if
`mr.state === "recording"` still holds. -/
def fireAuto (s : HomeRec) : HomeRec :=
  match s.autoStopAt with
  | none => s
  | some m =>
    if s.recording then
      homeOnstop m
        { s with
          autoStopAt := none, recording := false, autoFired := true }
    else { s with autoStopAt := none }

/-- One external event.  `ondataavailable` (line 172) buffers a fragment only
when its size is positive; `stopRec` (lines 214–222) clears the auto-stop
timeout and the countdown, then stops the recorder (running `onstop`), and is
a no-op when the recorder is not recording. -/
def homeStep (now : Nat) (s : HomeRec) : UEvent → HomeRec
  | UEvent.data sz =>
    if 0 < sz then { s with chunkSizes := s.chunkSizes ++ [sz] } else s
  | UEvent.manualStop =>
    if s.recording then
      homeOnstop now
        { s with
          autoStopAt := none, countdownOn := false, recording := false }
    else s

/-- Fire the pending auto-stop if its scheduled time is at or before `t`. -/
def maybeFire (t : Nat) (s : HomeRec) : HomeRec :=
  match s.autoStopAt with
  | some m => if m ≤ t then fireAuto s else s
  | none => s

/-- Process one timestamped event: first let a due auto-stop fire, then
handle the event. -/
def stepOne (s : HomeRec) (p : Nat × UEvent) : HomeRec :=
  homeStep p.1 (maybeFire p.1 s) p.2

/-- Run a session from state `s` over a trace of timestamped events; after
the last event, time flows on, so a still-pending auto-stop fires. -/
def runFrom (s : HomeRec) (events : List (Nat × UEvent)) : HomeRec :=
  fireAuto (events.foldl stepOne s)

/-- A full home screen recorder session: `startRec` with auto-stop at
`maxMs`, then the external events. -/
def runHome (maxMs : Nat) (events : List (Nat × UEvent)) : HomeRec :=
  runFrom (startRecState maxMs) events

/-- A session that is still recording with its auto-stop scheduled at `m` and
nothing finalized yet. -/
def LiveAt (m : Nat) (s : HomeRec) : Prop :=
  s.recording = true ∧ s.autoStopAt = some m ∧ s.blobsFinalized = 0 ∧
  s.stopTime = none ∧ s.autoFired = false ∧ s.tracksReleased = false

/-- A session that stopped at time `t` (with `fired` telling whether the
auto-stop did it) and finalized exactly one blob. -/
def Ended (t : Nat) (fired : Bool) (s : HomeRec) : Prop :=
  s.recording = false ∧ s.autoStopAt = none ∧ s.blobsFinalized = 1 ∧
  s.stopTime = some t ∧ s.autoFired = fired ∧ s.tracksReleased = false

/-- A home session whose capture produced no data, already stopped: the
empty-capture status is shown, the pipeline was not entered, and a new turn
may start (`isRecording` and `isProcessing` both cleared). -/
def EndedEmpty (s : HomeRec) : Prop :=
  s.recording = false ∧ s.autoStopAt = none ∧
  s.statusMsg = emptyCaptureMsg ∧ s.pipelineEntered = false ∧
  s.isRecording = false ∧ s.isProcessing = false

/-- A home session still recording with nothing buffered and the pipeline not
entered. -/
def LiveEmpty (m : Nat) (s : HomeRec) : Prop :=
  s.recording = true ∧ s.autoStopAt = some m ∧ s.chunkSizes = [] ∧
  s.pipelineEntered = false ∧ s.isProcessing = false

/-! ### Restaurant lesson recorder (`startRecording` / `stopRecording`,
`src/apps/web/src/app/lesson/restaurant/page.tsx`)

`startRecording` (lines 131–167) arms a 1-second interval that counts
`secondsLeft` down from 15 and, on the tick that reaches the last second,
clears the interval and calls `stopRecording`.  Both callbacks are
`useCallback`s whose dependency lists contain only `isRecording`; the
`stopRecording` referenced by the interval closure is therefore the one
memoized in the render in which `startRecording` ran — a render where
`isRecording` was still false, since `startRecording` early-returns
otherwise.  That closure begins with `if (!isRecording) return;`, so the
auto-stop invocation returns immediately.  The model keeps the `isRecording`
value captured by the invoked closure as an explicit argument. -/

/-- State of one restaurant lesson recorder session. -/
structure LessonRec where
  /-- `mediaRecorderRef.current.state !== "inactive"`. -/
  mrRecording : Bool
  /-- The `isRecording` React state. -/
  isRecording : Bool
  secondsLeft : Nat
  /-- The countdown interval (`timerRef`) is armed. -/
  timerOn : Bool
  /-- `mr.onstop` stopped the stream's tracks. -/
  tracksReleased : Bool
  /-- How many times `mr.stop()` ran. -/
  mrStops : Nat
deriving DecidableEq

/-- State right after a successful `startRecording`: recorder started,
`isRecording` set, countdown armed at `total` seconds (15 in the source). -/
def startLessonRec (total : Nat) : LessonRec :=
  { mrRecording := true, isRecording := true, secondsLeft := total,
    timerOn := true, tracksReleased := false, mrStops := 0 }

/-- Body of `stopRecording` (lines 169–180) as invoked through a closure
whose memoizing render saw `isRecording = captured`: return immediately
unless `captured`; otherwise clear the interval, stop the recorder if it is
not inactive (running `mr.onstop`, which stops the stream's tracks), and
clear `isRecording`. -/
def stopRecordingBody (captured : Bool) (s : LessonRec) : LessonRec :=
  if captured = false then s
  else
    let s1 := { s with timerOn := false }
    let s2 :=
      if s1.mrRecording then
        { s1 with
          mrRecording := false, mrStops := s1.mrStops + 1,
          tracksReleased := true }
      else s1
    { s2 with isRecording := false }

/-- One 1-second interval tick (lines 152–163): decrement `secondsLeft`; on
reaching the last second, clear the interval and invoke the stale
`stopRecording` closure, whose captured `isRecording` is false. -/
def lessonTick (s : LessonRec) : LessonRec :=
  if s.timerOn = false then s
  else if s.secondsLeft ≤ 1 then
    stopRecordingBody false { s with timerOn := false, secondsLeft := 0 }
  else
    { s with secondsLeft := s.secondsLeft - 1 }

/-- `n` interval ticks. -/
def lessonTicks : Nat → LessonRec → LessonRec
  | 0, s => s
  | n + 1, s => lessonTicks n (lessonTick s)

/-- The current-render `stopRecording` (the one a click on the stop button
invokes while recording): its memoizing render saw `isRecording = true`. -/
def lessonManualStop (s : LessonRec) : LessonRec :=
  stopRecordingBody s.isRecording s

/-! ### Helper lemmas about the recorder model -/

theorem ended_homeStep {t : Nat} {f : Bool} {s : HomeRec}
    (h : Ended t f s) (now : Nat) (e : UEvent) :
    Ended t f (homeStep now s e) := by
  obtain ⟨h1, h2, h3, h4, h5, h6⟩ := h
  cases e with
  | data sz =>
    by_cases hsz : 0 < sz <;>
      simp [homeStep, hsz, Ended, h1, h2, h3, h4, h5, h6]
  | manualStop =>
    simp [homeStep, h1, Ended, h2, h3, h4, h5, h6]

theorem ended_maybeFire {t : Nat} {f : Bool} {s : HomeRec}
    (h : Ended t f s) (now : Nat) : maybeFire now s = s := by
  simp [maybeFire, h.2.1]

theorem ended_fireAuto {t : Nat} {f : Bool} {s : HomeRec}
    (h : Ended t f s) : fireAuto s = s := by
  simp [fireAuto, h.2.1]

theorem ended_stepOne {t : Nat} {f : Bool} {s : HomeRec}
    (h : Ended t f s) (p : Nat × UEvent) : Ended t f (stepOne s p) := by
  unfold stepOne
  rw [ended_maybeFire h]
  exact ended_homeStep h p.1 p.2

theorem ended_foldl {t : Nat} {f : Bool}
    (events : List (Nat × UEvent)) :
    ∀ s : HomeRec, Ended t f s → Ended t f (List.foldl stepOne s events) := by
  induction events with
  | nil => intro s h; simpa using h
  | cons p rest ih =>
    intro s h
    rw [List.foldl_cons]
    exact ih (stepOne s p) (ended_stepOne h p)

theorem live_fireAuto {m : Nat} {s : HomeRec}
    (h : LiveAt m s) : Ended m true (fireAuto s) := by
  obtain ⟨h1, h2, h3, h4, h5, h6⟩ := h
  by_cases hz : s.chunkSizes.sum = 0 <;>
    simp [fireAuto, h2, h1, homeOnstop, hz, Ended, h3, h6]

theorem live_stepOne_data {m : Nat} {s : HomeRec} {p : Nat × UEvent}
    (h : LiveAt m s) (hd : ∃ sz, p.2 = UEvent.data sz) :
    LiveAt m (stepOne s p) ∨ Ended m true (stepOne s p) := by
  obtain ⟨sz, hp⟩ := hd
  obtain ⟨h1, h2, h3, h4, h5, h6⟩ := h
  by_cases hm : m ≤ p.1
  · right
    have hmf : maybeFire p.1 s = fireAuto s := by simp [maybeFire, h2, hm]
    unfold stepOne
    rw [hmf, hp]
    exact ended_homeStep (live_fireAuto ⟨h1, h2, h3, h4, h5, h6⟩) p.1 _
  · left
    have hmf : maybeFire p.1 s = s := by simp [maybeFire, h2, hm]
    unfold stepOne
    rw [hmf, hp]
    by_cases hsz : 0 < sz <;>
      simp [homeStep, hsz, LiveAt, h1, h2, h3, h4, h5, h6]

theorem live_stepOne_pre {m : Nat} {s : HomeRec} {p : Nat × UEvent}
    (h : LiveAt m s) (hd : ∃ sz, p.2 = UEvent.data sz) (ht : p.1 < m) :
    LiveAt m (stepOne s p) := by
  obtain ⟨sz, hp⟩ := hd
  obtain ⟨h1, h2, h3, h4, h5, h6⟩ := h
  have hmf : maybeFire p.1 s = s := by
    simp [maybeFire, h2, Nat.not_le.mpr ht]
  unfold stepOne
  rw [hmf, hp]
  by_cases hsz : 0 < sz <;>
    simp [homeStep, hsz, LiveAt, h1, h2, h3, h4, h5, h6]

theorem live_foldl_data {m : Nat} (events : List (Nat × UEvent))
    (hdata : ∀ p ∈ events, ∃ sz, p.2 = UEvent.data sz) :
    ∀ s : HomeRec, LiveAt m s →
      LiveAt m (List.foldl stepOne s events) ∨
      Ended m true (List.foldl stepOne s events) := by
  induction events with
  | nil => intro s h; exact Or.inl (by simpa using h)
  | cons p rest ih =>
    intro s h
    rw [List.foldl_cons]
    rcases live_stepOne_data h (hdata p (by simp)) with h' | h'
    · exact ih (fun q hq => hdata q (by simp [hq])) (stepOne s p) h'
    · exact Or.inr (ended_foldl rest (stepOne s p) h')

theorem live_foldl_pre {m : Nat} (events : List (Nat × UEvent))
    (hdata : ∀ p ∈ events, (∃ sz, p.2 = UEvent.data sz) ∧ p.1 < m) :
    ∀ s : HomeRec, LiveAt m s → LiveAt m (List.foldl stepOne s events) := by
  induction events with
  | nil => intro s h; simpa using h
  | cons p rest ih =>
    intro s h
    rw [List.foldl_cons]
    exact ih (fun q hq => hdata q (by simp [hq])) (stepOne s p)
      (live_stepOne_pre h (hdata p (by simp)).1 (hdata p (by simp)).2)

theorem live_manualStop {m t : Nat} {s : HomeRec}
    (h : LiveAt m s) (ht : t < m) :
    Ended t false (stepOne s (t, UEvent.manualStop)) := by
  obtain ⟨h1, h2, h3, h4, h5, h6⟩ := h
  have hmf : maybeFire t s = s := by
    simp [maybeFire, h2, Nat.not_le.mpr ht]
  unfold stepOne
  rw [hmf]
  by_cases hz : s.chunkSizes.sum = 0 <;>
    simp [homeStep, h1, homeOnstop, hz, Ended, h3, h4, h5, h6]

theorem startRecState_live (maxMs : Nat) : LiveAt maxMs (startRecState maxMs) :=
  ⟨rfl, rfl, rfl, rfl, rfl, rfl⟩

theorem endedEmpty_homeStep {s : HomeRec} (h : EndedEmpty s) (now : Nat)
    (e : UEvent) : EndedEmpty (homeStep now s e) := by
  obtain ⟨h1, h2, h3, h4, h5, h6⟩ := h
  cases e with
  | data sz =>
    by_cases hsz : 0 < sz <;>
      simp [homeStep, hsz, EndedEmpty, h1, h2, h3, h4, h5, h6]
  | manualStop =>
    simp [homeStep, h1, EndedEmpty, h2, h3, h4, h5, h6]

theorem endedEmpty_stepOne {s : HomeRec} (h : EndedEmpty s)
    (p : Nat × UEvent) : EndedEmpty (stepOne s p) := by
  unfold stepOne
  rw [show maybeFire p.1 s = s from by simp [maybeFire, h.2.1]]
  exact endedEmpty_homeStep h p.1 p.2

theorem endedEmpty_foldl (events : List (Nat × UEvent)) :
    ∀ s : HomeRec, EndedEmpty s →
      EndedEmpty (List.foldl stepOne s events) := by
  induction events with
  | nil => intro s h; simpa using h
  | cons p rest ih =>
    intro s h
    rw [List.foldl_cons]
    exact ih (stepOne s p) (endedEmpty_stepOne h p)

theorem endedEmpty_fireAuto {s : HomeRec} (h : EndedEmpty s) :
    fireAuto s = s := by
  simp [fireAuto, h.2.1]

theorem liveEmpty_fireAuto {m : Nat} {s : HomeRec} (h : LiveEmpty m s) :
    EndedEmpty (fireAuto s) := by
  obtain ⟨h1, h2, h3, h4, h5⟩ := h
  have hzs : s.chunkSizes.sum = 0 := by rw [h3]; rfl
  simp [fireAuto, h2, h1, homeOnstop, hzs, EndedEmpty, h4, h5]

theorem liveEmpty_stepOne {m : Nat} {s : HomeRec} {p : Nat × UEvent}
    (h : LiveEmpty m s) (hz : ∀ sz, p.2 = UEvent.data sz → sz = 0) :
    LiveEmpty m (stepOne s p) ∨ EndedEmpty (stepOne s p) := by
  obtain ⟨h1, h2, h3, h4, h5⟩ := h
  have hzs : s.chunkSizes.sum = 0 := by rw [h3]; rfl
  cases hp : p.2 with
  | manualStop =>
    right
    by_cases hm : m ≤ p.1
    · have hmf : maybeFire p.1 s = fireAuto s := by simp [maybeFire, h2, hm]
      unfold stepOne
      rw [hmf, hp]
      exact endedEmpty_homeStep (liveEmpty_fireAuto ⟨h1, h2, h3, h4, h5⟩) p.1 _
    · have hmf : maybeFire p.1 s = s := by simp [maybeFire, h2, hm]
      unfold stepOne
      rw [hmf, hp]
      simp [homeStep, h1, homeOnstop, hzs, EndedEmpty, h4, h5]
  | data sz =>
    have hsz : sz = 0 := hz sz hp
    subst hsz
    by_cases hm : m ≤ p.1
    · right
      have hmf : maybeFire p.1 s = fireAuto s := by simp [maybeFire, h2, hm]
      unfold stepOne
      rw [hmf, hp]
      simpa [homeStep] using liveEmpty_fireAuto ⟨h1, h2, h3, h4, h5⟩
    · left
      have hmf : maybeFire p.1 s = s := by simp [maybeFire, h2, hm]
      unfold stepOne
      rw [hmf, hp]
      simpa [homeStep, LiveEmpty] using ⟨h1, h2, h3, h4, h5⟩

theorem liveEmpty_foldl {m : Nat} (events : List (Nat × UEvent))
    (hz : ∀ p ∈ events, ∀ sz, p.2 = UEvent.data sz → sz = 0) :
    ∀ s : HomeRec, LiveEmpty m s →
      LiveEmpty m (List.foldl stepOne s events) ∨
      EndedEmpty (List.foldl stepOne s events) := by
  induction events with
  | nil => intro s h; exact Or.inl (by simpa using h)
  | cons p rest ih =>
    intro s h
    rw [List.foldl_cons]
    rcases liveEmpty_stepOne h (hz p (by simp)) with h' | h'
    · exact ih (fun q hq => hz q (by simp [hq])) (stepOne s p) h'
    · exact Or.inr (endedEmpty_foldl rest (stepOne s p) h')

theorem lessonTick_inert {s : LessonRec}
    (h1 : s.mrRecording = true) (h2 : s.mrStops = 0)
    (h3 : s.isRecording = true) (h4 : s.tracksReleased = false) :
    (lessonTick s).mrRecording = true ∧ (lessonTick s).mrStops = 0 ∧
    (lessonTick s).isRecording = true ∧
    (lessonTick s).tracksReleased = false := by
  by_cases ht : s.timerOn = false
  · simp [lessonTick, ht, h1, h2, h3, h4]
  · by_cases hs : s.secondsLeft ≤ 1 <;>
      simp [lessonTick, stopRecordingBody, ht, hs, h1, h2, h3, h4]

theorem lessonTicks_inert (n : Nat) :
    ∀ s : LessonRec, s.mrRecording = true → s.mrStops = 0 →
      s.isRecording = true → s.tracksReleased = false →
      (lessonTicks n s).mrRecording = true ∧
      (lessonTicks n s).mrStops = 0 ∧
      (lessonTicks n s).isRecording = true ∧
      (lessonTicks n s).tracksReleased = false := by
  induction n with
  | zero => intro s h1 h2 h3 h4; exact ⟨h1, h2, h3, h4⟩
  | succ n ih =>
    intro s h1 h2 h3 h4
    have h := lessonTick_inert h1 h2 h3 h4
    exact ih (lessonTick s) h.1 h.2.1 h.2.2.1 h.2.2.2

/-- For contrast with the inert auto-stop: a manual press of the stop button
invokes the current render's `stopRecording` (captured `isRecording = true`),
which does stop the recorder and release the tracks. -/
theorem lessonManualStop_stops {s : LessonRec}
    (h1 : s.mrRecording = true) (h3 : s.isRecording = true) :
    (lessonManualStop s).mrRecording = false ∧
    (lessonManualStop s).isRecording = false ∧
    (lessonManualStop s).tracksReleased = true := by
  simp [lessonManualStop, stopRecordingBody, h1, h3]

/-! ### Claim theorems -/

/-- In the home screen variant a recorder session that is started and never
manually stopped (its external events are data fragments only) auto-stops
exactly at maxDurationMs — the scheduled timeout fires, guarded on the
recorder still recording — and finalizes exactly one blob.  This is the
behavior the spec describes; the restaurant lesson variant diverges from it
(see the C2 theorem below). -/
theorem home_auto_stop_at_max (maxMs : Nat)
    (events : List (Nat × UEvent))
    (hdata : ∀ p ∈ events, ∃ sz, p.2 = UEvent.data sz) :
    (runHome maxMs events).stopTime = some maxMs ∧
    (runHome maxMs events).blobsFinalized = 1 ∧
    (runHome maxMs events).autoFired = true := by
  have hrun : runHome maxMs events =
      fireAuto (List.foldl stepOne (startRecState maxMs) events) := rfl
  rcases live_foldl_data events hdata (startRecState maxMs)
      (startRecState_live maxMs) with h | h
  · have he := live_fireAuto h
    rw [hrun]
    exact ⟨he.2.2.2.1, he.2.2.1, he.2.2.2.2.1⟩
  · rw [hrun, ended_fireAuto h]
    exact ⟨h.2.2.2.1, h.2.2.1, h.2.2.2.2.1⟩

/-- Instance of `home_auto_stop_at_max` at maxDurationMs = 15000 with one
500-byte fragment at 1000 ms. -/
theorem home_auto_stop_at_max_instance :
    (runHome 15000 [(1000, UEvent.data 500)]).stopTime = some 15000 ∧
    (runHome 15000 [(1000, UEvent.data 500)]).blobsFinalized = 1 ∧
    (runHome 15000 [(1000, UEvent.data 500)]).autoFired = true :=
  home_auto_stop_at_max 15000 [(1000, UEvent.data 500)]
    (fun p hp => by
      rw [List.mem_singleton] at hp
      exact ⟨500, by rw [hp]⟩)

/-- C2 (behavior at the failing input): in the restaurant lesson variant a
session that is started and never manually stopped does not auto-stop at
maxDurationMs: the interval callback invokes the `stopRecording` closure
memoized in the render where `isRecording` was still false, which returns
immediately, so after the 15th tick — and after every later tick — the
countdown interval is cleared and the counter reads 0, yet the recorder is
still recording, `mr.stop()` never ran, the tracks are still held, and no
stop handoff occurred, contradicting the claimed auto-stop at exactly
maxDurationMs with one finalized blob. -/
theorem c2_restaurant_autostop_inert :
    (∀ n : Nat,
      (lessonTicks n (startLessonRec 15)).mrRecording = true ∧
      (lessonTicks n (startLessonRec 15)).mrStops = 0 ∧
      (lessonTicks n (startLessonRec 15)).isRecording = true ∧
      (lessonTicks n (startLessonRec 15)).tracksReleased = false) ∧
    (lessonTicks 15 (startLessonRec 15)).timerOn = false ∧
    (lessonTicks 15 (startLessonRec 15)).secondsLeft = 0 := by
  refine ⟨?_, by decide, by decide⟩
  intro n
  exact lessonTicks_inert n (startLessonRec 15) rfl rfl rfl rfl

/-- C7: a manual stop at t < maxDurationMs cancels the scheduled auto-stop —
the completion handoff runs exactly once, exactly one blob is finalized, and
the auto-stop callback never stops the recorder — and `stopRec` while not
recording is a no-op that changes no session state. -/
theorem c7_manual_stop_cancels (maxMs t : Nat) (ht : t < maxMs)
    (pre post : List (Nat × UEvent))
    (hpre : ∀ p ∈ pre, (∃ sz, p.2 = UEvent.data sz) ∧ p.1 < maxMs) :
    (runHome maxMs (pre ++ (t, UEvent.manualStop) :: post)).blobsFinalized = 1 ∧
    (runHome maxMs (pre ++ (t, UEvent.manualStop) :: post)).stopTime = some t ∧
    (runHome maxMs (pre ++ (t, UEvent.manualStop) :: post)).autoFired = false ∧
    (∀ (now : Nat) (s : HomeRec), s.recording = false →
      homeStep now s UEvent.manualStop = s) := by
  have hlive : LiveAt maxMs (List.foldl stepOne (startRecState maxMs) pre) :=
    live_foldl_pre pre hpre (startRecState maxMs) (startRecState_live maxMs)
  have hstop : Ended t false
      (stepOne (List.foldl stepOne (startRecState maxMs) pre)
        (t, UEvent.manualStop)) :=
    live_manualStop hlive ht
  have hend : Ended t false
      (List.foldl stepOne (startRecState maxMs)
        (pre ++ (t, UEvent.manualStop) :: post)) := by
    rw [List.foldl_append, List.foldl_cons]
    exact ended_foldl post _ hstop
  have hrun : runHome maxMs (pre ++ (t, UEvent.manualStop) :: post) =
      fireAuto (List.foldl stepOne (startRecState maxMs)
        (pre ++ (t, UEvent.manualStop) :: post)) := rfl
  refine ⟨?_, ?_, ?_, ?_⟩
  · rw [hrun, ended_fireAuto hend]; exact hend.2.2.1
  · rw [hrun, ended_fireAuto hend]; exact hend.2.2.2.1
  · rw [hrun, ended_fireAuto hend]; exact hend.2.2.2.2.1
  · intro now s hs
    simp [homeStep, hs]

/-- Witness for C7: manual stop at 5000 ms with one fragment at 1000 ms, and
a later stop press on an already-stopped session. -/
theorem c7_manual_stop_cancels_witness :
    (runHome 15000 [(1000, UEvent.data 9), (5000, UEvent.manualStop)]).blobsFinalized = 1 ∧
    (runHome 15000 [(1000, UEvent.data 9), (5000, UEvent.manualStop)]).stopTime = some 5000 ∧
    (runHome 15000 [(1000, UEvent.data 9), (5000, UEvent.manualStop)]).autoFired = false := by
  have h := c7_manual_stop_cancels 15000 5000 (by decide)
    [(1000, UEvent.data 9)] []
    (fun p hp => by
      rw [List.mem_singleton] at hp
      exact ⟨⟨9, by rw [hp]⟩, by rw [hp]; decide⟩)
  exact ⟨h.1, h.2.1, h.2.2.1⟩

/-- C3 (behavior at the failing input): in the home screen variant a
completed session — here a manual stop at 5000 ms after a fragment arrived —
ends with the countdown cleared but the capture device still held: the code
has no `stream.getTracks().forEach(t => t.stop())`, so `tracksReleased` is
false on this exit path, contradicting the claimed release on every exit
path. -/
theorem c3_home_device_not_released :
    (runHome 15000 [(1000, UEvent.data 9), (5000, UEvent.manualStop)]).stopTime
      = some 5000 ∧
    (runHome 15000 [(1000, UEvent.data 9), (5000, UEvent.manualStop)]).isRecording
      = false ∧
    (runHome 15000 [(1000, UEvent.data 9), (5000, UEvent.manualStop)]).countdownOn
      = false ∧
    (runHome 15000 [(1000, UEvent.data 9), (5000, UEvent.manualStop)]).autoStopAt
      = none ∧
    (runHome 15000 [(1000, UEvent.data 9), (5000, UEvent.manualStop)]).tracksReleased
      = false := by decide

/-- C1: both pipelines issue their remote stages in strict order and halt at
the first non-ok response with a status string, issuing no later-stage call
and no retry: the home pipeline's call trace is exactly the prefix of
ASR, CHAT, TTS up to and including the first failing stage (with the exact
error status line), and the lesson pipeline's trace is the corresponding
prefix of ASR, TURN, TTS A (with its error message); no trace repeats a
stage. -/
theorem c1_pipeline_strict_order (asrR chatR ttsR turnR ttsAR ttsBR : Resp)
    (tj : TurnResp) (blobSize stepIndex : Nat) :
    ((processBlob asrR chatR ttsR).calls =
      if asrR.ok = false then [Stage.asr]
      else if chatR.ok = false then [Stage.asr, Stage.chat]
      else [Stage.asr, Stage.chat, Stage.tts]) ∧
    (asrR.ok = false →
      (processBlob asrR chatR ttsR).statusMsg =
        "ASR " ++ toString asrR.statusCode ++ ": " ++ (asrR.errMsg.getD "error")) ∧
    (asrR.ok = true → chatR.ok = false →
      (processBlob asrR chatR ttsR).statusMsg =
        "CHAT " ++ toString chatR.statusCode ++ ": " ++ (chatR.errMsg.getD "error")) ∧
    (asrR.ok = true → chatR.ok = true → ttsR.ok = false →
      (processBlob asrR chatR ttsR).statusMsg =
        "TTS " ++ toString ttsR.statusCode ++ ": " ++ (ttsR.errMsg.getD "error")) ∧
    (blobSize ≠ 0 → asrR.ok = false →
      (processAnswer blobSize stepIndex asrR turnR tj ttsAR ttsBR).calls
          = [Stage.asr] ∧
      (processAnswer blobSize stepIndex asrR turnR tj ttsAR ttsBR).errTxt =
        "ASR failed: " ++ toString asrR.statusCode ++ " "
          ++ (orEmpty asrR.errMsg).take 200) ∧
    (blobSize ≠ 0 → asrR.ok = true → jsTrim (orEmpty asrR.text) ≠ "" →
      turnR.ok = false →
      (processAnswer blobSize stepIndex asrR turnR tj ttsAR ttsBR).calls
          = [Stage.asr, Stage.turn] ∧
      (processAnswer blobSize stepIndex asrR turnR tj ttsAR ttsBR).errTxt =
        "TURN failed: " ++ toString turnR.statusCode ++ " "
          ++ (orEmpty turnR.errMsg).take 200) ∧
    (blobSize ≠ 0 → asrR.ok = true → jsTrim (orEmpty asrR.text) ≠ "" →
      turnR.ok = true → tj.teacher_feedback ≠ "" → ttsAR.ok = false →
      (processAnswer blobSize stepIndex asrR turnR tj ttsAR ttsBR).calls
          = [Stage.asr, Stage.turn, Stage.ttsA] ∧
      (processAnswer blobSize stepIndex asrR turnR tj ttsAR ttsBR).errTxt =
        "TTS failed: " ++ toString ttsAR.statusCode) ∧
    (processBlob asrR chatR ttsR).calls.Nodup ∧
    (processAnswer blobSize stepIndex asrR turnR tj ttsAR ttsBR).calls.Nodup := by
  refine ⟨?_, ?_, ?_, ?_, ?_, ?_, ?_, ?_, ?_⟩
  · by_cases ha : asrR.ok = false
    · simp [processBlob, ha]
    · by_cases hc : chatR.ok = false
      · simp [processBlob, ha, hc]
      · by_cases ht : ttsR.ok = false <;> simp [processBlob, ha, hc, ht]
  · intro ha; simp [processBlob, ha]
  · intro ha hc; simp [processBlob, ha, hc]
  · intro ha hc ht; simp [processBlob, ha, hc, ht]
  · intro hb ha; simp [processAnswer, hb, ha]
  · intro hb ha htr htu; simp [processAnswer, hb, ha, htr, htu]
  · intro hb ha htr htu hfb hta
    simp [processAnswer, hb, ha, htr, htu, hfb, hta]
  · by_cases ha : asrR.ok = false
    · simp [processBlob, ha]
    · by_cases hc : chatR.ok = false
      · simp [processBlob, ha, hc]
      · by_cases ht : ttsR.ok = false <;> simp [processBlob, ha, hc, ht]
  · by_cases hb : blobSize = 0
    · simp [processAnswer, hb]
    · by_cases ha : asrR.ok = false
      · simp [processAnswer, hb, ha]
      · by_cases htr : jsTrim (orEmpty asrR.text) = ""
        · simp [processAnswer, hb, ha, htr]
        · by_cases hfb : tj.teacher_feedback = "" <;>
            by_cases hco : tj.corrected_sentence = "" <;>
            by_cases htu : turnR.ok = false <;>
            by_cases hta : ttsAR.ok = false <;>
            by_cases htb : ttsBR.ok = false <;>
            simp [processAnswer, hb, ha, htr, hfb, hco, htu, hta, htb]

/-- Witness for C1: a failing ASR halts the home pipeline after the ASR call,
and a failing TURN halts the lesson pipeline after ASR and TURN. -/
theorem c1_pipeline_strict_order_witness :
    (processBlob ⟨false, 500, none, some "boom"⟩ ⟨true, 200, some "x", none⟩
        ⟨true, 200, none, none⟩).calls = [Stage.asr] ∧
    (processAnswer 10 0 ⟨true, 200, some "hi", none⟩
        ⟨false, 502, none, some "bad"⟩ ⟨"f", "c", false, false, 0, ""⟩
        ⟨true, 200, none, none⟩ ⟨true, 200, none, none⟩).calls
      = [Stage.asr, Stage.turn] := by
  constructor
  · have h := (c1_pipeline_strict_order ⟨false, 500, none, some "boom"⟩
      ⟨true, 200, some "x", none⟩ ⟨true, 200, none, none⟩
      ⟨true, 200, none, none⟩ ⟨true, 200, none, none⟩ ⟨true, 200, none, none⟩
      ⟨"f", "c", false, false, 0, ""⟩ 10 0).1
    simpa using h
  · exact ((c1_pipeline_strict_order ⟨true, 200, some "hi", none⟩
      ⟨true, 200, some "x", none⟩ ⟨true, 200, none, none⟩
      ⟨false, 502, none, some "bad"⟩ ⟨true, 200, none, none⟩
      ⟨true, 200, none, none⟩ ⟨"f", "c", false, false, 0, ""⟩
      10 0).2.2.2.2.2.1 (by decide) rfl (by decide) rfl).1

/-- C6 counterexample: in the home screen pipeline an ok ASR response with an
empty transcript does not halt the pipeline — the CHAT stage (and then TTS)
is still issued with the empty prompt, contradicting the claim that an empty
transcript halts before the correct/respond stage. -/
theorem c6_home_empty_transcript_counterexample :
    orEmpty ((⟨true, 200, some "", none⟩ : Resp)).text = "" ∧
    (processBlob ⟨true, 200, some "", none⟩ ⟨true, 200, some "ok", none⟩
        ⟨true, 200, none, none⟩).calls
      = [Stage.asr, Stage.chat, Stage.tts] := by decide

/-- C6 amended: in the restaurant lesson pipeline an ok ASR response whose
transcript is empty after trimming halts the turn with the
"nothing recognized" error before the dialogue stage — no TURN and no
synthesis call is issued.  (The home screen pipeline instead proceeds to
CHAT with the empty prompt.) -/
theorem c6_lesson_halts_on_empty_transcript (blobSize stepIndex : Nat)
    (asrR turnR : Resp) (tj : TurnResp) (ttsAR ttsBR : Resp)
    (hb : blobSize ≠ 0) (hok : asrR.ok = true)
    (hempty : jsTrim (orEmpty asrR.text) = "") :
    (processAnswer blobSize stepIndex asrR turnR tj ttsAR ttsBR).calls
      = [Stage.asr] ∧
    (processAnswer blobSize stepIndex asrR turnR tj ttsAR ttsBR).errTxt
      = "No se reconoció texto en el audio." := by
  simp [processAnswer, hb, hok, hempty]

/-- Witness for C6 (amended): a whitespace-only transcript halts after ASR. -/
theorem c6_lesson_halts_witness :
    (processAnswer 4 0 ⟨true, 200, some "   ", none⟩ ⟨true, 200, none, none⟩
        ⟨"", "", false, false, 0, ""⟩ ⟨true, 200, none, none⟩
        ⟨true, 200, none, none⟩).calls = [Stage.asr] :=
  (c6_lesson_halts_on_empty_transcript 4 0 ⟨true, 200, some "   ", none⟩
    ⟨true, 200, none, none⟩ ⟨"", "", false, false, 0, ""⟩
    ⟨true, 200, none, none⟩ ⟨true, 200, none, none⟩
    (by decide) rfl (by decide)).1

/-- C9 counterexample: the part_003 lesson variant's `mr.onstop` performs no
blob-size check — with no buffered fragment (blob size 0) it still enters the
pipeline and issues the transcription request, contradicting the claim that a
zero-size blob never reaches the Pipeline Sequencer. -/
theorem c9_part003_empty_blob_counterexample :
    (lessonOnstop [] 0 ⟨true, 200, some "hello", none⟩ ⟨true, 200, none, none⟩
        ⟨"Good", "Hello", false, false, 0, ""⟩).blobSize = 0 ∧
    (lessonOnstop [] 0 ⟨true, 200, some "hello", none⟩ ⟨true, 200, none, none⟩
        ⟨"Good", "Hello", false, false, 0, ""⟩).calls
      = [Stage.asr, Stage.turn, Stage.ttsA, Stage.ttsB] := by decide

/-- C9 amended: in the home screen variant every session whose capture
produced no data — whatever maxDurationMs, whenever it is stopped (manually
at any time or by the auto-stop), with any number of zero-size fragment
events — ends reporting the empty-capture status, does not enter the
pipeline, and leaves the controller able to start a new turn (`isRecording`
and `isProcessing` both false); and in the restaurant lesson variant a
zero-size blob sets the recoverable "No se capturó audio." error and issues
no remote call.  (The part_003 lesson variant has no such guard.) -/
theorem c9_empty_capture_guarded_variants :
    (∀ (maxMs : Nat) (events : List (Nat × UEvent)),
      (∀ p ∈ events, ∀ sz, p.2 = UEvent.data sz → sz = 0) →
      (runHome maxMs events).statusMsg = emptyCaptureMsg ∧
      (runHome maxMs events).pipelineEntered = false ∧
      (runHome maxMs events).isRecording = false ∧
      (runHome maxMs events).isProcessing = false) ∧
    (∀ (stepIndex : Nat) (asrR turnR : Resp) (tj : TurnResp)
        (ttsAR ttsBR : Resp),
      (processAnswer 0 stepIndex asrR turnR tj ttsAR ttsBR).calls = [] ∧
      (processAnswer 0 stepIndex asrR turnR tj ttsAR ttsBR).errTxt
        = "No se capturó audio.") := by
  constructor
  · intro maxMs events hz
    have hstart : LiveEmpty maxMs (startRecState maxMs) :=
      ⟨rfl, rfl, rfl, rfl, rfl⟩
    have hrun : runHome maxMs events =
        fireAuto (List.foldl stepOne (startRecState maxMs) events) := rfl
    rcases liveEmpty_foldl events hz (startRecState maxMs) hstart with h | h
    · have he := liveEmpty_fireAuto h
      rw [hrun]
      exact ⟨he.2.2.1, he.2.2.2.1, he.2.2.2.2.1, he.2.2.2.2.2⟩
    · rw [hrun, endedEmpty_fireAuto h]
      exact ⟨h.2.2.1, h.2.2.2.1, h.2.2.2.2.1, h.2.2.2.2.2⟩
  · intro stepIndex asrR turnR tj ttsAR ttsBR
    simp [processAnswer]

/-- Witness for C9 (amended): a silent session manually stopped at 3000 ms
reports the empty capture without entering the pipeline, and a zero-size blob
in the restaurant variant issues no call. -/
theorem c9_empty_capture_guarded_variants_witness :
    (runHome 15000 [(3000, UEvent.manualStop)]).statusMsg = emptyCaptureMsg ∧
    (runHome 15000 [(3000, UEvent.manualStop)]).pipelineEntered = false ∧
    (runHome 15000 [(3000, UEvent.manualStop)]).isRecording = false ∧
    (runHome 15000 [(3000, UEvent.manualStop)]).isProcessing = false ∧
    (processAnswer 0 7 ⟨true, 200, some "hi", none⟩ ⟨true, 200, none, none⟩
        ⟨"f", "c", false, false, 0, ""⟩ ⟨true, 200, none, none⟩
        ⟨true, 200, none, none⟩).calls = [] := by
  have h1 := c9_empty_capture_guarded_variants.1 15000
    [(3000, UEvent.manualStop)]
    (fun p hp sz hsz => by
      rw [List.mem_singleton] at hp
      subst hp
      simp at hsz)
  have h2 := c9_empty_capture_guarded_variants.2 7
    ⟨true, 200, some "hi", none⟩ ⟨true, 200, none, none⟩
    ⟨"f", "c", false, false, 0, ""⟩ ⟨true, 200, none, none⟩
    ⟨true, 200, none, none⟩
  exact ⟨h1.1, h1.2.1, h1.2.2.1, h1.2.2.2, h2.1⟩

/-- C8: in the lesson variant the step index after a turn equals the step
index before it whenever the dialogue stage reports `advanced = false`; the
step index changes, and the next prompt is pre-synthesized, only when the
dialogue stage reports advancement (with a non-empty next prompt), in which
case the new index is the reported `next_step_index`; and the restaurant
lesson page never changes its step index at all. -/
theorem c8_step_index_gated (chunkSizes : List Nat) (stepIndex : Nat)
    (asrR turnR : Resp) (tj : TurnResp)
    (blobSize2 stepIndex2 : Nat) (asrR2 turnR2 : Resp) (tj2 : TurnResp)
    (ttsAR2 ttsBR2 : Resp) :
    (tj.advanced = false →
      (lessonOnstop chunkSizes stepIndex asrR turnR tj).stepIndexAfter
        = stepIndex ∧
      Stage.ttsNext ∉ (lessonOnstop chunkSizes stepIndex asrR turnR tj).calls) ∧
    ((lessonOnstop chunkSizes stepIndex asrR turnR tj).stepIndexAfter
        ≠ stepIndex → tj.advanced = true) ∧
    (Stage.ttsNext ∈ (lessonOnstop chunkSizes stepIndex asrR turnR tj).calls →
      tj.advanced = true ∧ tj.next_teacher_text_native ≠ "") ∧
    (asrR.ok = true → turnR.ok = true → tj.advanced = true →
      tj.next_teacher_text_native ≠ "" →
      (lessonOnstop chunkSizes stepIndex asrR turnR tj).stepIndexAfter
        = tj.next_step_index ∧
      Stage.ttsNext ∈ (lessonOnstop chunkSizes stepIndex asrR turnR tj).calls ∧
      (lessonOnstop chunkSizes stepIndex asrR turnR tj).ttsNextText
        = tj.next_teacher_text_native) ∧
    (processAnswer blobSize2 stepIndex2 asrR2 turnR2 tj2 ttsAR2
        ttsBR2).stepIndexAfter = stepIndex2 := by
  have hmain : ∀ hadv : tj.advanced = false,
      (lessonOnstop chunkSizes stepIndex asrR turnR tj).stepIndexAfter
        = stepIndex ∧
      Stage.ttsNext ∉ (lessonOnstop chunkSizes stepIndex asrR turnR tj).calls := by
    intro hadv
    by_cases ha : asrR.ok = false
    · simp [lessonOnstop, ha]
    · by_cases htu : turnR.ok = false <;>
        simp [lessonOnstop, ha, htu, hadv]
  refine ⟨hmain, ?_, ?_, ?_, ?_⟩
  · intro hne
    by_cases hadv : tj.advanced = true
    · exact hadv
    · exact absurd (hmain (Bool.not_eq_true _ ▸ hadv)).1 hne
  · intro hmem
    by_cases ha : asrR.ok = false
    · simp [lessonOnstop, ha] at hmem
    · by_cases htu : turnR.ok = false
      · simp [lessonOnstop, ha, htu] at hmem
      · by_cases hc : tj.advanced ∧ tj.next_teacher_text_native ≠ ""
        · exact hc
        · simp [lessonOnstop, ha, htu, hc] at hmem
  · intro ha htu hadv hnext
    simp [lessonOnstop, ha, htu, hadv, hnext]
  · by_cases hb : blobSize2 = 0
    · simp [processAnswer, hb]
    · by_cases ha : asrR2.ok = false
      · simp [processAnswer, hb, ha]
      · by_cases htr : jsTrim (orEmpty asrR2.text) = ""
        · simp [processAnswer, hb, ha, htr]
        · by_cases hfb : tj2.teacher_feedback = "" <;>
            by_cases hco : tj2.corrected_sentence = "" <;>
            by_cases htu : turnR2.ok = false <;>
            by_cases hta : ttsAR2.ok = false <;>
            by_cases htb : ttsBR2.ok = false <;>
            simp [processAnswer, hb, ha, htr, hfb, hco, htu, hta, htb]

/-- Witness for C8: a turn with `advanced = false` leaves the step index at 2
and issues no next-prompt synthesis. -/
theorem c8_step_index_gated_witness :
    (lessonOnstop [5] 2 ⟨true, 200, some "hi", none⟩ ⟨true, 200, none, none⟩
        ⟨"Good", "Hello", false, false, 7, "Next"⟩).stepIndexAfter = 2 ∧
    Stage.ttsNext ∉ (lessonOnstop [5] 2 ⟨true, 200, some "hi", none⟩
        ⟨true, 200, none, none⟩
        ⟨"Good", "Hello", false, false, 7, "Next"⟩).calls :=
  (c8_step_index_gated [5] 2 ⟨true, 200, some "hi", none⟩
    ⟨true, 200, none, none⟩ ⟨"Good", "Hello", false, false, 7, "Next"⟩
    1 1 ⟨true, 200, none, none⟩ ⟨true, 200, none, none⟩
    ⟨"", "", false, false, 0, ""⟩ ⟨true, 200, none, none⟩
    ⟨true, 200, none, none⟩).1 rfl

/-- C10: in the part_003 lesson variant the slow-pace shadowing synthesis
(TTS B) is sent the corrected sentence with all leading and trailing double
quotes stripped, while the normal-pace feedback synthesis (TTS A) is sent the
feedback text verbatim; interior quotes are kept, as the concrete instances
show. -/
theorem c10_shadowing_quote_stripped (chunkSizes : List Nat) (stepIndex : Nat)
    (asrR turnR : Resp) (tj : TurnResp)
    (hasr : asrR.ok = true) (hturn : turnR.ok = true) :
    (lessonOnstop chunkSizes stepIndex asrR turnR tj).ttsBText
      = stripEdgeQuotes tj.corrected_sentence ∧
    (lessonOnstop chunkSizes stepIndex asrR turnR tj).ttsAText
      = tj.teacher_feedback ∧
    stripEdgeQuotes "\"\"Hello \"world\" now\"" = "Hello \"world\" now" ∧
    stripEdgeQuotes "No quotes" = "No quotes" := by
  refine ⟨?_, ?_, by decide, by decide⟩ <;>
    by_cases hc : tj.advanced ∧ tj.next_teacher_text_native ≠ "" <;>
    simp [lessonOnstop, hasr, hturn, hc]

/-- Witness for C10: a corrected sentence wrapped in double quotes is
synthesized without them. -/
theorem c10_shadowing_quote_stripped_witness :
    (lessonOnstop [3] 0 ⟨true, 200, some "hi", none⟩ ⟨true, 200, none, none⟩
        ⟨"Feedback", "\"Hello there\"", false, false, 0, ""⟩).ttsBText
      = "Hello there" := by
  have h := c10_shadowing_quote_stripped [3] 0 ⟨true, 200, some "hi", none⟩
    ⟨true, 200, none, none⟩
    ⟨"Feedback", "\"Hello there\"", false, false, 0, ""⟩ rfl rfl
  rw [h.1]
  decide

/-- C4: the correction extraction follows the four-level precedence — first
double-quoted substring, else first single-quoted substring, else last
sentence-delimited clause, else the whole text — and reproduces the spec's
concrete examples. -/
theorem c4_extraction_precedence (t s c : String) :
    (firstQuoted dq t = some s → extractCorrected t = s) ∧
    (firstQuoted dq t = none → firstQuoted sq t = some s →
      extractCorrected t = s) ∧
    (firstQuoted dq t = none → firstQuoted sq t = none →
      lastClause t = some c → extractCorrected t = c) ∧
    (firstQuoted dq t = none → firstQuoted sq t = none →
      lastClause t = none → extractCorrected t = t) ∧
    extractCorrected "He said \"I go to store\" yesterday." = "I go to store" ∧
    extractCorrected "no quotes here. Last clause stands." = "Last clause stands" := by
  refine ⟨?_, ?_, ?_, ?_, by decide, by decide⟩
  · intro h1; simp [extractCorrected, h1]
  · intro h1 h2; simp [extractCorrected, h1, h2]
  · intro h1 h2 h3; simp [extractCorrected, h1, h2, h3]
  · intro h1 h2 h3; simp [extractCorrected, h1, h2, h3]

/-- Witness for C4: a double-quoted substring wins. -/
theorem c4_extraction_precedence_witness :
    extractCorrected "say \"word\" now" = "word" :=
  (c4_extraction_precedence "say \"word\" now" "word" "").1 (by decide)

/-- C5: voice resolution is a pure function of the saved preference and the
language: a saved preference from the enumerated set always wins; otherwise
the language-based default is used (with "verse" for languages starting with
"en", e.g. "en-US", "sage" for "es", and the global default "alloy" for
everything else). -/
theorem c5_voice_resolution (stored : Option String) (lang : String) :
    (∀ v, stored = some v → SUPPORTED_VOICES.contains v = true →
      resolveVoice stored lang = v) ∧
    (getSavedVoice stored = none →
      resolveVoice stored lang = defaultVoiceFor lang) ∧
    (isPre "en".toList (lowerAscii lang) = false →
      isPre "es".toList (lowerAscii lang) = false →
      defaultVoiceFor lang = "alloy") ∧
    resolveVoice none "en-US" = "verse" ∧
    resolveVoice (some "onyx") "es" = "onyx" := by
  refine ⟨?_, ?_, ?_, by decide, by decide⟩
  · intro v hv hc
    subst hv
    have hmem : v ∈ SUPPORTED_VOICES := by simpa using hc
    simp [resolveVoice, getSavedVoice, hmem]
  · intro h
    simp [resolveVoice, h]
  · intro h1 h2
    simp only [defaultVoiceFor]
    rw [h1, h2]
    simp

/-- Witness for C5: a saved "onyx" wins over the "en" default, and a missing
preference falls back to the language default. -/
theorem c5_voice_resolution_witness :
    resolveVoice (some "onyx") "en-US" = "onyx" ∧
    resolveVoice none "fr" = defaultVoiceFor "fr" :=
  ⟨(c5_voice_resolution (some "onyx") "en-US").1 "onyx" rfl (by decide),
   (c5_voice_resolution none "fr").2.1 (by decide)⟩

end Coach
